import Mathlib

/-!
Verification of the `lightly-train` examples repository: a shallow embedding of
the three notebooks (`quick_start.ipynb`, `yolov12.ipynb`, `rfdetr.ipynb`) and
of the documentation CI gate, with theorems settling the specification claims.

The notebooks are straight-line Python: each cell is a sequence of statements,
and the interesting ones are keyword-argument calls into external libraries
(`lightly_train.train`, `lightly_train.embed`, `YOLO(...).train`,
`RFDETRBase(...).train`) plus one hand-written fine-tuning loop.  We embed the
keyword-argument lists, the fine-tuning loop, the statement sequences, and the
filesystem effects literally from the notebook sources.  Behaviour of the
`lightly_train` package itself (the artifact layout of a run, the embedding
artifact, the CI workflow file) is not part of the given sources and is
modelled from the specification where a claim needs it; such definitions are
marked `Modelled from the spec`.
-/

namespace LightlyTrain

/-- A Python keyword-argument value as used in the notebooks: a string, a
natural number, a boolean, or a rational literal (for `lr=1e-4`). -/
inductive Value where
  | str (s : String)
  | nat (n : Nat)
  | bool (b : Bool)
  | rat (q : Rat)
  deriving DecidableEq, Repr

/-- A call into an external library: the dotted function name and its
keyword-argument list, in source order. -/
structure Invocation where
  fn : String
  kwargs : List (String × Value)
  deriving DecidableEq, Repr

/-- The named options of the configuration surface listed by the spec. -/
def allowedOptions : List String :=
  ["out", "data", "model", "epochs", "batch_size", "overwrite", "checkpoint"]

/-- `lightly_train.train(...)` from `quick_start.ipynb` (Train cell). -/
def quickStartTrainCall : Invocation :=
  { fn := "lightly_train.train"
    kwargs :=
      [("out", .str "out/my_experiment"),
       ("data", .str "my_data_dir"),
       ("model", .str "torchvision/resnet18"),
       ("epochs", .nat 10),
       ("batch_size", .nat 32)] }

/-- `lightly_train.train(...)` from the YOLOv12 notebook; `datasetsDir` stands
for the value of `settings['datasets_dir']` read from Ultralytics. -/
def yolov12TrainCall (datasetsDir : String) : Invocation :=
  { fn := "lightly_train.train"
    kwargs :=
      [("out", .str "out/my_experiment"),
       ("data", .str (datasetsDir ++ "/coco8/images/train")),
       ("model", .str "ultralytics/yolov12s.yaml"),
       ("epochs", .nat 10),
       ("batch_size", .nat 32),
       ("overwrite", .bool true)] }

/-- `lightly_train.train(...)` from the RF-DETR notebook; `pretrainLoc` stands
for `pretrain_dataset.location` returned by the Roboflow download. -/
def rfdetrTrainCall (pretrainLoc : String) : Invocation :=
  { fn := "lightly_train.train"
    kwargs :=
      [("out", .str "out/my_experiment"),
       ("data", .str pretrainLoc),
       ("model", .str "rfdetr/rf-detr-base"),
       ("epochs", .nat 5),
       ("batch_size", .nat 16),
       ("overwrite", .bool true)] }

/-- `lightly_train.embed(...)` from `quick_start.ipynb` (Embed cell). -/
def quickStartEmbedCall : Invocation :=
  { fn := "lightly_train.embed"
    kwargs :=
      [("out", .str "my_embeddings.pth"),
       ("checkpoint", .str "out/my_experiment/checkpoints/last.ckpt"),
       ("data", .str "my_data_dir")] }

/-- `model.train(...)` on the `YOLO` object in the YOLOv12 notebook. -/
def yoloFineTuneCall : Invocation :=
  { fn := "YOLO.train"
    kwargs := [("data", .str "coco8.yaml"), ("epochs", .nat 10)] }

/-- `model.train(...)` on the `RFDETRBase` object in the RF-DETR notebook;
`finetuneLoc` stands for `finetune_dataset.location`. -/
def rfdetrFineTuneCall (finetuneLoc : String) : Invocation :=
  { fn := "RFDETRBase.train"
    kwargs :=
      [("dataset_dir", .str finetuneLoc),
       ("epochs", .nat 10),
       ("batch_size", .nat 4),
       ("lr", .rat (1 / 10000))] }

/-- The `lightly_train.train` invocations of the repository. -/
def lightlyTrainTrainCalls (datasetsDir pretrainLoc : String) : List Invocation :=
  [quickStartTrainCall, yolov12TrainCall datasetsDir, rfdetrTrainCall pretrainLoc]

/-- All `lightly_train` invocations (training and embedding) of the repository. -/
def lightlyTrainCalls (datasetsDir pretrainLoc : String) : List Invocation :=
  lightlyTrainTrainCalls datasetsDir pretrainLoc ++ [quickStartEmbedCall]

/-- Every keyword of the invocation is drawn from `allowedOptions`. -/
def optionsAllowed (inv : Invocation) : Bool :=
  inv.kwargs.all (fun kw => allowedOptions.contains kw.1)

/-- The invocation supplies the named option with a string value. -/
def suppliesStr (inv : Invocation) (name : String) : Bool :=
  match inv.kwargs.lookup name with
  | some (.str _) => true
  | _ => false

/-- The invocation supplies the named option with a positive natural value. -/
def suppliesPosNat (inv : Invocation) (name : String) : Bool :=
  match inv.kwargs.lookup name with
  | some (.nat n) => Nat.ble 1 n
  | _ => false

/-- The invocation supplies the named option with a boolean value. -/
def suppliesBool (inv : Invocation) (name : String) : Bool :=
  match inv.kwargs.lookup name with
  | some (.bool _) => true
  | _ => false

/-- The full profile claimed for a training invocation: output path, data
source path, model identifier string, positive epochs, positive batch size. -/
def trainCore (inv : Invocation) : Bool :=
  suppliesStr inv "out" && suppliesStr inv "data" && suppliesStr inv "model" &&
    suppliesPosNat inv "epochs" && suppliesPosNat inv "batch_size"

/-!
### The quick-start fine-tuning cell

`quick_start.ipynb` fine-tunes by hand: it builds an `ImageFolder` dataset, a
`DataLoader` with `batch_size=16, shuffle=True, drop_last=True`, loads the
exported state dict into a fresh `models.resnet18()`, replaces `model.fc` by
`nn.Linear(model.fc.in_features, len(dataset.classes))`, and runs a plain
optimisation loop.  Parameter tensors are represented as `List Rat`; the
random initialisation of a fresh module is an explicit argument.
-/

/-- A `torch.nn.Linear` layer: its shape and its (flattened) parameters. -/
structure LinearLayer where
  in_features : Nat
  out_features : Nat
  params : List Rat
  deriving DecidableEq, Repr

/-- A Torchvision ResNet-18: all parameters outside the classification head,
and the `fc` head itself. -/
structure ResNet18 where
  backbone : List Rat
  fc : LinearLayer
  deriving DecidableEq, Repr

/-- A serialized state dict, as stored in `exported_last.pt`: one entry per
parameter of the ResNet-18 that produced it. -/
structure StateDict where
  backbone : List Rat
  fc : LinearLayer
  deriving DecidableEq, Repr

/-- `torchvision.models.resnet18()`: a ResNet-18 with freshly initialised
parameters (`backboneInit`, `fcInit`) and the default 1000-class head of
512 input features. -/
def resnet18 (backboneInit fcInit : List Rat) : ResNet18 :=
  { backbone := backboneInit
    fc := { in_features := 512, out_features := 1000, params := fcInit } }

/-- `model.load_state_dict(sd)`: every parameter of the model is overwritten
by the corresponding entry of the state dict. -/
def load_state_dict (_ : ResNet18) (sd : StateDict) : ResNet18 :=
  { backbone := sd.backbone, fc := sd.fc }

/-- `nn.Linear(inF, outF)`: a fresh linear layer with initialisation `init`. -/
def nnLinear (inF outF : Nat) (init : List Rat) : LinearLayer :=
  { in_features := inF, out_features := outF, params := init }

/-- A `datasets.ImageFolder`: its class names and its samples (path, label). -/
structure ImageFolder where
  classes : List String
  samples : List (String × Nat)
  deriving DecidableEq, Repr

/-- The model-preparation part of the fine-tune cell, in source order:
`model = models.resnet18()`; `model.load_state_dict(torch.load(...))`;
`model.fc = nn.Linear(model.fc.in_features, len(dataset.classes))`. -/
def fineTuneSetup (exported : StateDict) (dataset : ImageFolder)
    (backboneInit fcInit newFcInit : List Rat) : ResNet18 :=
  let model := resnet18 backboneInit fcInit
  let model := load_state_dict model exported
  { model with fc := nnLinear model.fc.in_features dataset.classes.length newFcInit }

/-!
### The fine-tuning loop and the DataLoader

The loop is, per epoch:
```text
running_loss = 0.0
for inputs, labels in progress_bar:
    ...
    loss = criterion(outputs, labels.to(device))
    ...
print(f"Epoch ..., Loss: (loss.item())")
```
`running_loss` is written once and never read or updated; `loss` is rebound on
every iteration, so the printed value is the loss of the final batch — and the
print raises `NameError` when the loop body never ran and `loss` is unbound.
A batch is abstract (`α`) and `criterion` produces its loss value.
-/

/-- `DataLoader(dataset, batch_size=16, shuffle=True, drop_last=True)` applied
to an already-shuffled list of samples: the full chunks of 16, the trailing
incomplete chunk dropped. -/
def dataLoaderBatches {α : Type} (items : List α) : List (List α) :=
  (List.range (items.length / 16)).map (fun i => (items.drop (16 * i)).take 16)

/-- One epoch of the loop: starting from `running_loss = 0.0` and the current
binding of `loss` (`none` when it was never bound), run the body once per
batch.  Returns the pair (`running_loss`, binding of `loss`) after the loop. -/
def epochState {α : Type} (criterion : α → Rat) (batches : List α)
    (loss0 : Option Rat) : Rat × Option Rat :=
  batches.foldl (fun st b => (st.1, some (criterion b))) ((0 : Rat), loss0)

/-- The per-epoch `print(f"Epoch ..., Loss: (loss.item())")`: evaluating
`loss` fails with a `NameError` when it was never bound. -/
def printEpochLoss : Option Rat → Except String Rat
  | some l => .ok l
  | none => .error "NameError: name loss is not defined"

/-!
### The notebooks as statement sequences

Each notebook is straight-line Python.  We embed it as a list of statements:
shell commands, plain Python source lines (imports, assignments, prints,
loops — nothing that transfers control on errors), and external-library
calls.  Python's `try/except` construct is included in the statement type so
that its absence from the notebooks is a checkable fact, and so that error
propagation can be stated against a semantics in which catching exists.
-/

/-- A Python / notebook statement. -/
inductive Stmt where
  | shellCmd (cmd : String)
  | pySrc (src : String)
  | externalCall (inv : Invocation)
  | tryExcept (body : List Stmt) (handler : List Stmt)
  deriving Repr

/-- Whether a statement is a `try/except`.  Only `tryExcept` nests statements,
so scanning a list of statements with this predicate finds every `try/except`
at any depth. -/
def isTryExcept : Stmt → Bool
  | .tryExcept _ _ => true
  | _ => false

/-- A semantics for the external libraries: what each call raises, if
anything.  Shell commands and plain source lines succeed. -/
def ExtSem : Type := Invocation → Except String Unit

mutual
/-- Execute one statement under external semantics `sem`: an external call may
raise; `try/except` runs the handler when the body raises. -/
def execStmt (sem : ExtSem) : Stmt → Except String Unit
  | .shellCmd _ => .ok ()
  | .pySrc _ => .ok ()
  | .externalCall inv => sem inv
  | .tryExcept body handler =>
    match execStmts sem body with
    | .ok _ => .ok ()
    | .error _ => execStmts sem handler

/-- Execute a statement sequence: the first raised error aborts the rest. -/
def execStmts (sem : ExtSem) : List Stmt → Except String Unit
  | [] => .ok ()
  | s :: rest =>
    match execStmt sem s with
    | .ok _ => execStmts sem rest
    | .error e => .error e
end

/-- `quick_start.ipynb` as a statement sequence. -/
def quickStartProgram : List Stmt :=
  [.shellCmd "pip install lightly-train",
   .shellCmd "git clone https://github.com/lightly-ai/dataset_clothing_images.git my_data_dir",
   .shellCmd "rm -rf my_data_dir/.git",
   .pySrc "import lightly_train",
   .externalCall quickStartTrainCall,
   .pySrc "imports, transforms, dataset, dataloader",
   .pySrc "model = models.resnet18()",
   .pySrc "model.load_state_dict(torch.load(...))",
   .pySrc "model.fc = nn.Linear(model.fc.in_features, len(dataset.classes))",
   .pySrc "device selection, criterion, optimizer",
   .pySrc "fine-tuning loop over epochs and batches",
   .pySrc "import lightly_train",
   .externalCall quickStartEmbedCall,
   .pySrc "embeddings = torch.load(...); prints"]

/-- The YOLOv12 notebook as a statement sequence. -/
def yolov12Program (datasetsDir : String) : List Stmt :=
  [.shellCmd "pip install lightly_train",
   .shellCmd "pip install git+https://github.com/sunsmarterjie/yolov12",
   .shellCmd "pip install flash-attn --no-build-isolation",
   .pySrc "import flash_attn; print version",
   .externalCall { fn := "ultralytics.data.utils.check_det_dataset"
                   kwargs := [("descriptor", .str "coco8.yaml")] },
   .pySrc "from ultralytics import settings",
   .pySrc "import lightly_train",
   .externalCall (yolov12TrainCall datasetsDir),
   .externalCall { fn := "YOLO"
                   kwargs := [("model", .str "out/my_experiment/exported_models/exported_last.pt")] },
   .externalCall yoloFineTuneCall]

/-- The RF-DETR notebook as a statement sequence. -/
def rfdetrProgram (pretrainLoc finetuneLoc : String) : List Stmt :=
  [.shellCmd "pip install lightly-train[rfdetr]",
   .pySrc "from roboflow import Roboflow; rf = Roboflow(api_key=...)",
   .externalCall { fn := "roboflow.version.download"
                   kwargs := [("format", .str "coco")] },
   .externalCall { fn := "roboflow.version.download"
                   kwargs := [("format", .str "coco")] },
   .pySrc "import lightly_train",
   .externalCall (rfdetrTrainCall pretrainLoc),
   .externalCall { fn := "RFDETRBase"
                   kwargs := [("pretrain_weights", .str "out/my_experiment/exported_models/exported_last.pt")] },
   .externalCall (rfdetrFineTuneCall finetuneLoc)]

/-- All three notebook programs of the repository. -/
def repoPrograms (datasetsDir pretrainLoc finetuneLoc : String) : List (List Stmt) :=
  [quickStartProgram, yolov12Program datasetsDir, rfdetrProgram pretrainLoc finetuneLoc]

/-!
### Filesystem effects

A path is its list of segments; a filesystem state is the list of file paths
present.  The quick-start data-preparation cell is
`git clone ... my_data_dir` followed by `rm -rf my_data_dir/.git`; the
training, embedding and fine-tuning steps touch the filesystem only through
the external library, whose effect on disk is modelled from the spec.
-/

/-- A filesystem path, as its segments. -/
abbrev Path : Type := List String

/-- The files of the dataset directory `my_data_dir` in filesystem `fs`. -/
def datasetDirContents (fs : List Path) : List Path :=
  fs.filter (fun p => (List.head? p) == some "my_data_dir")

/-- `git clone <repo> my_data_dir`: every file of the cloned repository —
its working tree and the `.git` metadata directory git creates — appears
under `my_data_dir`. -/
def gitCloneMyDataDir (repoFiles : List Path) (fs : List Path) : List Path :=
  fs ++ repoFiles.map (fun p => "my_data_dir" :: p)

/-- `rm -rf my_data_dir/.git`: every file under `my_data_dir/.git` is
removed. -/
def rmRfMyDataDirGit (fs : List Path) : List Path :=
  fs.filter (fun p => !(List.take 2 p == ["my_data_dir", ".git"]))

/-- A stand-in for the files of the cloned `dataset_clothing_images`
repository: some image files plus the `.git` metadata any clone has. -/
def clothingRepoFiles : List Path :=
  [[".git", "HEAD"], [".git", "config"],
   ["dresses", "img_0.jpg"], ["shirts", "img_1.jpg"]]

/-- Modelled from the spec: the experiment output directory written by a
completed `lightly_train.train` run — a checkpoints subdirectory with
intermediate checkpoints and `last.ckpt`, a Tensorboard event log, an
exported-models subdirectory with `exported_last.pt`, a metrics file and a
training log, all under the `out` directory.  `interCkptNames` are the
run-dependent intermediate checkpoint file names. -/
def trainRunFiles (out : Path) (interCkptNames : List String) : List Path :=
  interCkptNames.map (fun c => out ++ ["checkpoints", c]) ++
    [out ++ ["checkpoints", "last.ckpt"],
     out ++ ["events.out.tfevents.123.0"],
     out ++ ["exported_models", "exported_last.pt"],
     out ++ ["metrics.jsonl"],
     out ++ ["train.log"]]

/-- Modelled from the spec: the filesystem effect of `lightly_train.train` —
it reads the data directory and writes the run artifacts under `out`. -/
def trainEffect (out : Path) (interCkptNames : List String) (fs : List Path) : List Path :=
  fs ++ trainRunFiles out interCkptNames

/-- Modelled from the spec: the filesystem effect of `lightly_train.embed` —
it reads the checkpoint and the data directory and writes the single
embeddings file `out`. -/
def embedEffect (out : Path) (fs : List Path) : List Path :=
  fs ++ [out]

/-- Modelled from the spec: the fine-tuning steps load the exported weights
and train in memory; they read the dataset and write nothing into it. -/
def fineTuneEffect (fs : List Path) : List Path :=
  fs

/-!
### The run output layout and the exported-model path (claim C7)

String-path view of the same layout, matching the literal path strings the
fine-tuning cells pass to `torch.load`, `YOLO(...)` and
`RFDETRBase(pretrain_weights=...)`.
-/

/-- Modelled from the spec: the file paths of a completed run with output
directory `out`, with the run-dependent intermediate checkpoint paths
abstracted as `interCkpts`. -/
def runLayout (out : String) (interCkpts : List String) : List String :=
  interCkpts ++
    [out ++ "/checkpoints/last.ckpt",
     out ++ "/events.out.tfevents.123.0",
     out ++ "/exported_models/exported_last.pt",
     out ++ "/metrics.jsonl",
     out ++ "/train.log"]

/-- The path every run of the three notebooks uses as output directory. -/
def experimentOut : String := "out/my_experiment"

/-- The path `torch.load` reads in the quick-start fine-tune cell. -/
def quickStartLoadPath : String := "out/my_experiment/exported_models/exported_last.pt"

/-- The path the `YOLO(...)` constructor loads in the YOLOv12 notebook. -/
def yoloLoadPath : String := "out/my_experiment/exported_models/exported_last.pt"

/-- The `pretrain_weights` path `RFDETRBase(...)` loads in the RF-DETR
notebook. -/
def rfdetrLoadPath : String := "out/my_experiment/exported_models/exported_last.pt"

/-!
### The embeddings artifact (claim C1)
-/

/-- A field value of the persisted embeddings mapping: a sequence of
filenames or a two-dimensional numeric array. -/
inductive EmbedValue where
  | names (filenames : List String)
  | matrix (rows : List (List Rat))
  deriving DecidableEq, Repr

/-- Modelled from the spec: `lightly_train.embed` computes one
`dim`-dimensional feature vector per image (`featureOf`) and persists a
mapping of exactly two fields — the image filenames in order, and the
embedding rows in the same order. -/
def embedArtifact (imageFilenames : List String) (dim : Nat)
    (featureOf : String → Fin dim → Rat) : List (String × EmbedValue) :=
  [("filenames", .names imageFilenames),
   ("embeddings", .matrix (imageFilenames.map (fun f => List.ofFn (featureOf f))))]

/-!
### The documentation CI gate (claim C2)

The workflow file `.github/workflows/test_documentation.yml` is not among the
given sources; its gate and job are modelled from the spec.
-/

/-- The workflow file's own path. -/
def testDocumentationWorkflowPath : Path :=
  [".github", "workflows", "test_documentation.yml"]

/-- Modelled from the spec: the paths-filter predicate of the
`detect-code-changes` job — a changed file counts as documentation-relevant
when it is outside `docker/` and outside `.github/`, or when it is the
workflow file itself. -/
def docRelevantChange (p : Path) : Bool :=
  (!(List.head? p == some "docker") && !(List.head? p == some ".github")) ||
    (p == testDocumentationWorkflowPath)

/-- Modelled from the spec: the paths-filter output — `true` exactly when
some changed file is documentation-relevant. -/
def pathsFilterOutput (changed : List Path) : Bool :=
  changed.any docRelevantChange

/-- The outcome of the `test-documentation` job: a pass/fail exit status. -/
inductive JobResult where
  | pass
  | fail
  deriving DecidableEq, Repr

/-- Modelled from the spec: the `test-documentation` job installs
dependencies and builds the documentation; it passes exactly when both
steps succeed. -/
def testDocumentationJob (installOk buildOk : Bool) : JobResult :=
  if installOk && buildOk then .pass else .fail

/-- Modelled from the spec: a CI run on a change set — the job executes (and
yields its pass/fail status) exactly when the paths-filter output is
`true`, and is skipped (`none`) otherwise. -/
def ciRun (changed : List Path) (installOk buildOk : Bool) : Option JobResult :=
  if pathsFilterOutput changed then some (testDocumentationJob installOk buildOk) else none

/-- External semantics in which `lightly_train.train` runs out of GPU memory
and every other call succeeds. -/
def oomSem : ExtSem := fun inv =>
  if inv.fn == "lightly_train.train" then .error "CUDA out of memory" else .ok ()

/-- The statements of `quick_start.ipynb` before its `lightly_train.train`
call. -/
def quickStartBefore : List Stmt :=
  [.shellCmd "pip install lightly-train",
   .shellCmd "git clone https://github.com/lightly-ai/dataset_clothing_images.git my_data_dir",
   .shellCmd "rm -rf my_data_dir/.git",
   .pySrc "import lightly_train"]

/-- The statements of `quick_start.ipynb` after its `lightly_train.train`
call. -/
def quickStartAfter : List Stmt :=
  [.pySrc "imports, transforms, dataset, dataloader",
   .pySrc "model = models.resnet18()",
   .pySrc "model.load_state_dict(torch.load(...))",
   .pySrc "model.fc = nn.Linear(model.fc.in_features, len(dataset.classes))",
   .pySrc "device selection, criterion, optimizer",
   .pySrc "fine-tuning loop over epochs and batches",
   .pySrc "import lightly_train",
   .externalCall quickStartEmbedCall,
   .pySrc "embeddings = torch.load(...); prints"]

/-!
## Theorems
-/

theorem epochState_eq {α : Type} (criterion : α → Rat) :
    ∀ (batches : List α) (loss0 : Option Rat),
      epochState criterion batches loss0
        = (0, (batches.map (fun b => some (criterion b))).getLastD loss0) := by
  intro batches
  induction batches with
  | nil => intro loss0; rfl
  | cons b bs ih =>
    intro loss0
    have h1 : epochState criterion (b :: bs) loss0
        = epochState criterion bs (some (criterion b)) := rfl
    rw [h1, ih (some (criterion b))]
    simp only [List.map_cons, List.getLastD_cons]

theorem mapSomeGetLastD {α : Type} (f : α → Rat) :
    ∀ (l : List α) (h : l ≠ []) (d : Option Rat),
      (l.map (fun b => some (f b))).getLastD d = some (f (l.getLast h)) := by
  intro l
  induction l with
  | nil => intro h; exact absurd rfl h
  | cons a l ih =>
    intro _ d
    cases l with
    | nil => rfl
    | cons b bs =>
      have h2 : (b :: bs : List α) ≠ [] := by simp
      rw [List.getLast_cons h2]
      have h4 := ih h2 d
      simp only [List.map_cons, List.getLastD_cons] at h4 ⊢
      exact h4

/-- Claim C3 counterexample: the quick-start `lightly_train.train` call does
not supply an `overwrite` option at all, so not every training invocation
supplies a boolean overwrite flag. -/
theorem quickStartTrain_no_overwrite :
    suppliesBool quickStartTrainCall "overwrite" = false := by decide

/-- Claim C3 (amended): every `lightly_train` training and embedding
invocation uses only named options drawn from `out`, `data`, `model`,
`epochs`, `batch_size`, `overwrite`, `checkpoint`; every training invocation
supplies an output path, data source path, model identifier string, positive
epochs and positive batch size; the YOLOv12 and RF-DETR training invocations
additionally supply a boolean overwrite flag (the quick-start one omits it);
and the embedding invocation supplies an output file path, checkpoint file
path and data source path. -/
theorem lightly_train_option_surface (datasetsDir pretrainLoc : String) :
    ((lightlyTrainCalls datasetsDir pretrainLoc).all optionsAllowed) = true ∧
    ((lightlyTrainTrainCalls datasetsDir pretrainLoc).all trainCore) = true ∧
    suppliesBool (yolov12TrainCall datasetsDir) "overwrite" = true ∧
    suppliesBool (rfdetrTrainCall pretrainLoc) "overwrite" = true ∧
    suppliesStr quickStartEmbedCall "out" = true ∧
    suppliesStr quickStartEmbedCall "checkpoint" = true ∧
    suppliesStr quickStartEmbedCall "data" = true :=
  ⟨rfl, rfl, rfl, rfl, rfl, rfl, rfl⟩

/-- Claim C4: the quick-start fine-tune cell loads the exported state dict
into a ResNet-18 and then replaces the final classification layer by a new
linear layer whose output dimension is the number of classes of the labeled
dataset; the replacement happens after the load, so the rest of the loaded
parameters stay in place. -/
theorem fineTuneSetup_replaces_head (exported : StateDict) (dataset : ImageFolder)
    (bInit fInit newInit : List Rat) :
    (fineTuneSetup exported dataset bInit fInit newInit).fc.out_features
        = dataset.classes.length ∧
    (fineTuneSetup exported dataset bInit fInit newInit).fc.in_features
        = exported.fc.in_features ∧
    (fineTuneSetup exported dataset bInit fInit newInit).backbone = exported.backbone :=
  ⟨rfl, rfl, rfl⟩

/-- Claim C9: at the start of fine-tuning every parameter outside the `fc`
head equals the corresponding exported pretrained parameter, while the new
`fc` head carries the fresh initialisation, not weights from the exported
artifact. -/
theorem fineTuneSetup_backbone_from_export (exported : StateDict) (dataset : ImageFolder)
    (bInit fInit newInit : List Rat) :
    (fineTuneSetup exported dataset bInit fInit newInit).backbone = exported.backbone ∧
    (fineTuneSetup exported dataset bInit fInit newInit).fc.params = newInit :=
  ⟨rfl, rfl⟩

/-- Claim C8: per epoch, `running_loss` is initialised to `0.0` and never
updated, and the loss printed at the end of the epoch is `loss.item()` of the
final batch only, not an average over the epoch. -/
theorem epoch_print_is_last_batch_loss {α : Type} (criterion : α → Rat)
    (batches : List α) (loss0 : Option Rat) (h : batches ≠ []) :
    (epochState criterion batches loss0).1 = 0 ∧
    printEpochLoss (epochState criterion batches loss0).2
      = .ok (criterion (batches.getLast h)) := by
  rw [epochState_eq criterion batches loss0, mapSomeGetLastD criterion batches h loss0]
  exact ⟨rfl, rfl⟩

/-- Witness for C8 at a concrete two-batch epoch with losses 3 and 7. -/
theorem epoch_print_is_last_batch_loss_witness :
    ([(3 : Rat), 7] ≠ []) ∧
    (epochState id [(3 : Rat), 7] none).1 = 0 ∧
    printEpochLoss (epochState id [(3 : Rat), 7] none).2 = .ok 7 := by
  refine ⟨by simp, ?_⟩
  have h := epoch_print_is_last_batch_loss id [(3 : Rat), 7] none (by simp)
  exact ⟨h.1, by rw [h.2]; rfl⟩

/-- Claim C10: with fewer than 16 images the DataLoader
(`batch_size=16, drop_last=True`) yields no batches, the loop body never
runs, and the per-epoch print fails with a `NameError` because `loss` was
never bound. -/
theorem small_dataset_loop_never_runs {α : Type} (items : List α)
    (criterion : List α → Rat) (h : items.length < 16) :
    dataLoaderBatches items = [] ∧
    printEpochLoss (epochState criterion (dataLoaderBatches items) none).2
      = .error "NameError: name loss is not defined" := by
  have hd : items.length / 16 = 0 := Nat.div_eq_of_lt h
  have hb : dataLoaderBatches items = [] := by
    simp [dataLoaderBatches, hd]
  exact ⟨hb, by rw [hb]; rfl⟩

/-- Witness for C10 on a five-image dataset. -/
theorem small_dataset_loop_never_runs_witness :
    ([0, 1, 2, 3, 4] : List Nat).length < 16 ∧
    dataLoaderBatches ([0, 1, 2, 3, 4] : List Nat) = [] ∧
    printEpochLoss
        (epochState (fun _ => (0 : Rat)) (dataLoaderBatches ([0, 1, 2, 3, 4] : List Nat)) none).2
      = .error "NameError: name loss is not defined" := by
  refine ⟨by decide, ?_⟩
  exact small_dataset_loop_never_runs [0, 1, 2, 3, 4] (fun _ => (0 : Rat)) (by decide)

theorem execStmts_append_error (sem : ExtSem) (p₂ : List Stmt) (s : Stmt) (e : String) :
    ∀ p₁ : List Stmt, execStmts sem p₁ = .ok () → execStmt sem s = .error e →
      execStmts sem (p₁ ++ s :: p₂) = .error e := by
  intro p₁
  induction p₁ with
  | nil =>
    intro _ herr
    simp only [List.nil_append, execStmts, herr]
  | cons a as ih =>
    intro hok herr
    simp only [execStmts] at hok
    cases ha : execStmt sem a with
    | ok u =>
      rw [ha] at hok
      simp only [List.cons_append, execStmts, ha]
      exact ih hok herr
    | error e2 =>
      rw [ha] at hok
      simp at hok

/-- Claim C5: the notebook programs contain no `try/except` (no error is
caught, classified, retried or recovered from), and any error raised by an
external-library call during one of them propagates to the caller unchanged,
aborting the remaining statements. -/
theorem no_local_error_recovery (datasetsDir pretrainLoc finetuneLoc : String)
    (sem : ExtSem) (p₁ p₂ : List Stmt) (s : Stmt) (e : String)
    (hmem : p₁ ++ s :: p₂ ∈ repoPrograms datasetsDir pretrainLoc finetuneLoc)
    (hok : execStmts sem p₁ = .ok ())
    (herr : execStmt sem s = .error e) :
    ((p₁ ++ s :: p₂).any isTryExcept) = false ∧
    execStmts sem (p₁ ++ s :: p₂) = .error e := by
  constructor
  · simp only [repoPrograms, List.mem_cons, List.mem_singleton,
      List.not_mem_nil, or_false] at hmem
    rcases hmem with h | h | h <;> rw [h] <;> rfl
  · exact execStmts_append_error sem p₂ s e p₁ hok herr

/-- Witness for C5: the quick-start notebook with an out-of-memory
`lightly_train.train` call. -/
theorem no_local_error_recovery_witness :
    (quickStartBefore ++ Stmt.externalCall quickStartTrainCall :: quickStartAfter)
        ∈ repoPrograms "datasets" "pre" "fine" ∧
    execStmts oomSem quickStartBefore = .ok () ∧
    execStmt oomSem (Stmt.externalCall quickStartTrainCall) = .error "CUDA out of memory" ∧
    (((quickStartBefore ++ Stmt.externalCall quickStartTrainCall :: quickStartAfter).any
        isTryExcept) = false ∧
      execStmts oomSem (quickStartBefore ++ Stmt.externalCall quickStartTrainCall :: quickStartAfter)
        = .error "CUDA out of memory") := by
  have hmem : (quickStartBefore ++ Stmt.externalCall quickStartTrainCall :: quickStartAfter)
      ∈ repoPrograms "datasets" "pre" "fine" := by
    show quickStartProgram ∈ repoPrograms "datasets" "pre" "fine"
    exact List.mem_cons_self _ _
  have hok : execStmts oomSem quickStartBefore = .ok () := by
    simp [execStmts, execStmt, quickStartBefore]
  have herr : execStmt oomSem (Stmt.externalCall quickStartTrainCall)
      = .error "CUDA out of memory" := by
    simp [execStmt, oomSem, quickStartTrainCall]
  exact ⟨hmem, hok, herr,
    no_local_error_recovery "datasets" "pre" "fine" oomSem quickStartBefore quickStartAfter
      (Stmt.externalCall quickStartTrainCall) "CUDA out of memory" hmem hok herr⟩

/-- Claim C6 counterexample: the data-preparation cell itself mutates the
dataset directory after the clone created it — `rm -rf my_data_dir/.git`
removes the `.git` files the clone put under `my_data_dir`. -/
theorem dataset_dir_mutated_after_clone :
    datasetDirContents (rmRfMyDataDirGit (gitCloneMyDataDir clothingRepoFiles []))
      ≠ datasetDirContents (gitCloneMyDataDir clothingRepoFiles []) := by
  decide

/-- Claim C6 (amended): after the data-preparation cell completes — the clone
followed by the removal of the `.git` metadata — no later step of the
workflow mutates the dataset directory: training, embedding and fine-tuning
consume it read-only. -/
theorem dataset_dir_read_only_after_acquisition (repoFiles : List Path)
    (interCkptNames : List String) (fs : List Path) :
    datasetDirContents
        (fineTuneEffect
          (embedEffect ["my_embeddings.pth"]
            (trainEffect ["out", "my_experiment"] interCkptNames
              (rmRfMyDataDirGit (gitCloneMyDataDir repoFiles fs)))))
      = datasetDirContents (rmRfMyDataDirGit (gitCloneMyDataDir repoFiles fs)) := by
  have hmap : ∀ l : List Path,
      datasetDirContents (l ++ trainRunFiles ["out", "my_experiment"] interCkptNames
          ++ [["my_embeddings.pth"]])
        = datasetDirContents l := by
    intro l
    simp only [datasetDirContents, List.filter_append]
    have h1 : (trainRunFiles ["out", "my_experiment"] interCkptNames).filter
        (fun p => (List.head? p) == some "my_data_dir") = [] := by
      rw [List.filter_eq_nil_iff]
      intro p hp
      simp only [trainRunFiles, List.mem_append, List.mem_map, List.mem_cons,
        List.not_mem_nil, or_false] at hp
      rcases hp with ⟨c, _, rfl⟩ | h | h | h | h | h <;> simp_all
    have h2 : ([["my_embeddings.pth"]] : List Path).filter
        (fun p => (List.head? p) == some "my_data_dir") = [] := by decide
    rw [h1, h2, List.append_nil, List.append_nil]
  have hassoc : fineTuneEffect
      (embedEffect ["my_embeddings.pth"]
        (trainEffect ["out", "my_experiment"] interCkptNames
          (rmRfMyDataDirGit (gitCloneMyDataDir repoFiles fs))))
      = (rmRfMyDataDirGit (gitCloneMyDataDir repoFiles fs))
          ++ trainRunFiles ["out", "my_experiment"] interCkptNames
          ++ [["my_embeddings.pth"]] := by
    simp [fineTuneEffect, embedEffect, trainEffect]
  rw [hassoc, hmap]

/-- Claim C7: the completed-run layout contains exactly one last checkpoint
(`checkpoints/last.ckpt`) and exactly one last exported model
(`exported_models/exported_last.pt`), and all three downstream fine-tuning
steps load the exported model from exactly that path. -/
theorem one_last_checkpoint_one_export (interCkpts : List String)
    (h₁ : "out/my_experiment/checkpoints/last.ckpt" ∉ interCkpts)
    (h₂ : "out/my_experiment/exported_models/exported_last.pt" ∉ interCkpts) :
    (runLayout experimentOut interCkpts).count "out/my_experiment/checkpoints/last.ckpt" = 1 ∧
    (runLayout experimentOut interCkpts).count
        "out/my_experiment/exported_models/exported_last.pt" = 1 ∧
    quickStartLoadPath = "out/my_experiment/exported_models/exported_last.pt" ∧
    yoloLoadPath = quickStartLoadPath ∧
    rfdetrLoadPath = quickStartLoadPath ∧
    quickStartLoadPath ∈ runLayout experimentOut interCkpts := by
  refine ⟨?_, ?_, rfl, rfl, rfl, ?_⟩
  · rw [runLayout, List.count_append, List.count_eq_zero.mpr h₁]
    decide
  · rw [runLayout, List.count_append, List.count_eq_zero.mpr h₂]
    decide
  · rw [runLayout]
    exact List.mem_append_right _ (by decide)

/-- Witness for C7 at a run with one intermediate checkpoint. -/
theorem one_last_checkpoint_one_export_witness :
    ("out/my_experiment/checkpoints/last.ckpt"
        ∉ ["out/my_experiment/checkpoints/epoch=9-step=30.ckpt"]) ∧
    ("out/my_experiment/exported_models/exported_last.pt"
        ∉ ["out/my_experiment/checkpoints/epoch=9-step=30.ckpt"]) ∧
    (runLayout experimentOut ["out/my_experiment/checkpoints/epoch=9-step=30.ckpt"]).count
        "out/my_experiment/checkpoints/last.ckpt" = 1 ∧
    (runLayout experimentOut ["out/my_experiment/checkpoints/epoch=9-step=30.ckpt"]).count
        "out/my_experiment/exported_models/exported_last.pt" = 1 := by
  have h := one_last_checkpoint_one_export
    ["out/my_experiment/checkpoints/epoch=9-step=30.ckpt"] (by decide) (by decide)
  exact ⟨by decide, by decide, h.1, h.2.1⟩

/-- Claim C1: the persisted embeddings artifact is a mapping with exactly the
two fields `filenames` and `embeddings`; the latter is a two-dimensional
numeric array whose leading dimension equals the length of the filenames
sequence, index-aligned with it (row `i` is the embedding of filename
`i`), and every row has the embedding dimension. -/
theorem embedArtifact_shape (imageFilenames : List String) (dim : Nat)
    (featureOf : String → Fin dim → Rat) :
    (embedArtifact imageFilenames dim featureOf).map Prod.fst
        = ["filenames", "embeddings"] ∧
    (embedArtifact imageFilenames dim featureOf).lookup "filenames"
        = some (.names imageFilenames) ∧
    ∃ rows,
      (embedArtifact imageFilenames dim featureOf).lookup "embeddings"
          = some (.matrix rows) ∧
      rows.length = imageFilenames.length ∧
      (∀ r ∈ rows, r.length = dim) ∧
      ∀ i (hi : i < rows.length) (hi2 : i < imageFilenames.length),
        rows.get ⟨i, hi⟩ = List.ofFn (featureOf (imageFilenames.get ⟨i, hi2⟩)) := by
  refine ⟨rfl, rfl,
    imageFilenames.map (fun f => List.ofFn (featureOf f)), rfl, List.length_map _ _, ?_, ?_⟩
  · intro r hr
    rcases List.mem_map.mp hr with ⟨f, _, rfl⟩
    exact List.length_ofFn _
  · intro i hi hi2
    simp [List.get_eq_getElem, List.getElem_map]

/-- Claim C2: the `test-documentation` job executes exactly when some changed
file is outside `docker/` and outside `.github/`, or is the workflow file
itself; and when it executes, its outcome is only the pass/fail status of
installing dependencies and building the documentation. -/
theorem test_documentation_gate (changed : List Path) (installOk buildOk : Bool) :
    ((ciRun changed installOk buildOk).isSome ↔
      ∃ p ∈ changed,
        (¬ List.head? p = some "docker" ∧ ¬ List.head? p = some ".github") ∨
          p = testDocumentationWorkflowPath) ∧
    (ciRun changed installOk buildOk = none ∨
      ciRun changed installOk buildOk = some (testDocumentationJob installOk buildOk)) := by
  constructor
  · have hiff : (ciRun changed installOk buildOk).isSome
        = pathsFilterOutput changed := by
      rw [ciRun]
      by_cases hp : pathsFilterOutput changed = true
      · simp [hp]
      · simp [hp]
    rw [hiff, pathsFilterOutput, List.any_eq_true]
    refine exists_congr fun p => and_congr_right fun _ => ?_
    rw [docRelevantChange]
    simp
  · rw [ciRun]
    by_cases hp : pathsFilterOutput changed = true
    · simp [hp]
    · simp [hp]

end LightlyTrain
